import Mathlib

/-!
Verification development for the ai-agent-app repository.

The file embeds, as executable Lean definitions, the three pieces of the
repository that the properties below are about:

* `evaluate_math_expression` from src/app/tools/math_tool.py;
* `get_weather` from src/app/tools/weather.py, with the HTTP world passed
  in explicitly as an environment;
* the streaming result reporter `process_query_with_agent_streaming` from
  src/app/agent.py, with the LangChain executor stream passed in explicitly
  as the list of chunks it yields, plus the exception (when any) that the
  generator raises after those chunks.

Python float behavior is modelled bit-faithfully: float() parsing (optional
sign, digit groups with underscores, fraction, exponent part, inf and nan
keywords, Unicode decimal digits, surrounding whitespace) and the four
arithmetic operations are embedded over binary64 values — a canonical
mantissa/exponent pair, an infinity, or nan — with round-to-nearest,
ties-to-even rounding, subnormals, and overflow to infinity. Tokenization
uses the Python str.split whitespace set. A valuation into the rationals is
used only to state properties of finite values.
-/

namespace AgentApp

/-- A Python float value: a finite binary64 number as mantissa times a power
of two — canonical form: 2^52 <= |m| < 2^53 for normals, e = -1074 with
0 < |m| < 2^52 for subnormals, (0, 0) for zero — or an infinity with its
sign, or nan. Negative zero is collapsed onto (0, 0): the repository only
compares floats with 0 (where -0.0 == 0 holds), converts them with int()
(int(-0.0) = 0), or returns them, and a returned float is never zero, since
a zero result is whole and is returned through int(). -/
inductive PyFloat where
  | finite (m : Int) (e : Int)
  | inf (neg : Bool)
  | nan
deriving DecidableEq

/-- Result type of evaluate_math_expression: the Python function returns an
int, a float, or an error message string. -/
inductive MathResult where
  | int (n : Int)
  | float (x : PyFloat)
  | err (msg : String)
deriving DecidableEq

/-- An exact fraction, numerator over positive denominator: the valuation
target used to state properties of finite float values. -/
def Frac : Type := Int × Nat

instance : DecidableEq Frac := instDecidableEqProd

/-- Numerator of a fraction. -/
def Frac.num (x : Frac) : Int := x.1

/-- Denominator of a fraction. -/
def Frac.den (x : Frac) : Nat := x.2

/-- The exact value m * 2^e of a finite float, as a fraction. -/
def PyFloat.toFrac : PyFloat → Frac
  | PyFloat.finite m e => if 0 ≤ e then (m * 2 ^ e.toNat, 1) else (m, 2 ^ (-e).toNat)
  | _ => (0, 1)

/-- The test behind ZeroDivisionError of float division: the divisor is a
positive or negative floating-point zero. -/
def PyFloat.isZero : PyFloat → Bool
  | PyFloat.finite m _ => decide (m = 0)
  | _ => false

/-- Round a natural fraction a / b to the nearest integer, ties to even:
the rounding step of every binary64 operation and conversion. -/
def roundDiv (a b : Nat) : Nat :=
  let q := a / b
  let r := a % b
  if 2 * r < b then q
  else if b < 2 * r then q + 1
  else if q % 2 = 0 then q else q + 1

/-- Binary exponent search: for positive a and b returns E with
2^E * b ≤ a < 2^(E+1) * b, given fuel of at least one unit per doubling
step; callers pass fuel exceeding the bit sizes of a and b. -/
def findExp (fuel : Nat) (a b : Nat) (e : Int) : Int :=
  match fuel with
  | 0 => e
  | f + 1 =>
      if a < b then findExp f (2 * a) b (e - 1)
      else if 2 * b ≤ a then findExp f a (2 * b) (e + 1)
      else e

/-- Round the positive value A / B to binary64: normal values get a 53-bit
mantissa (with a carry bumping the exponent), values below 2^(-1022) are
rounded at the fixed subnormal scale 2^(-1074), and values rounding to
2^1024 or beyond overflow to none, read as infinity. -/
def mkFloatPos (fuel : Nat) (A B : Nat) : Option (Nat × Int) :=
  let E := findExp fuel A B 0
  if E < -1022 then
    some (roundDiv (A * 2 ^ 1074) B, -1074)
  else if 1023 < E then none
  else
    let q := if E ≤ 52 then roundDiv (A * 2 ^ (52 - E).toNat) B
      else roundDiv A (B * 2 ^ (E - 52).toNat)
    if q = 2 ^ 53 then
      if E = 1023 then none else some (2 ^ 52, E + 1 - 52)
    else some (q, E - 52)

/-- Round the value A / B with the given sign to a binary64 float. -/
def mkFloat (fuel : Nat) (neg : Bool) (A B : Nat) : PyFloat :=
  if A = 0 then PyFloat.finite 0 0
  else
    match mkFloatPos fuel A B with
    | none => PyFloat.inf neg
    | some (q, e) =>
        if q = 0 then PyFloat.finite 0 0
        else PyFloat.finite (if neg then -(q : Int) else (q : Int)) e

/-- Fuel for rounding after an arithmetic operation: operand mantissas and
exponents are bounded by the binary64 format, so the bit sizes involved
stay far below this. -/
def opFuel : Nat := 4800

/-- Round the exact dyadic value M * 2^k to binary64. -/
def roundDyadic (M : Int) (k : Int) : PyFloat :=
  if 0 ≤ k then mkFloat opFuel (decide (M < 0)) (M.natAbs * 2 ^ k.toNat) 1
  else mkFloat opFuel (decide (M < 0)) M.natAbs (2 ^ (-k).toNat)

/-- Float negation. -/
def PyFloat.neg : PyFloat → PyFloat
  | PyFloat.finite m e => PyFloat.finite (-m) e
  | PyFloat.inf s => PyFloat.inf (!s)
  | PyFloat.nan => PyFloat.nan

/-- Binary64 addition: the exact sum rounded once; opposite infinities give
nan, nan propagates. -/
def PyFloat.add : PyFloat → PyFloat → PyFloat
  | PyFloat.nan, _ => PyFloat.nan
  | _, PyFloat.nan => PyFloat.nan
  | PyFloat.inf s1, PyFloat.inf s2 => if s1 = s2 then PyFloat.inf s1 else PyFloat.nan
  | PyFloat.inf s, PyFloat.finite _ _ => PyFloat.inf s
  | PyFloat.finite _ _, PyFloat.inf s => PyFloat.inf s
  | PyFloat.finite m1 e1, PyFloat.finite m2 e2 =>
      let k := min e1 e2
      roundDyadic (m1 * 2 ^ (e1 - k).toNat + m2 * 2 ^ (e2 - k).toNat) k

/-- Binary64 subtraction: addition of the negation, which rounds once on
the exact difference, exactly as the direct operation does. -/
def PyFloat.sub (x y : PyFloat) : PyFloat := x.add y.neg

/-- Binary64 multiplication: the exact product rounded once; infinity times
zero gives nan, nan propagates. -/
def PyFloat.mul : PyFloat → PyFloat → PyFloat
  | PyFloat.nan, _ => PyFloat.nan
  | _, PyFloat.nan => PyFloat.nan
  | PyFloat.inf s1, PyFloat.inf s2 => PyFloat.inf (Bool.xor s1 s2)
  | PyFloat.inf s, PyFloat.finite m _ =>
      if m = 0 then PyFloat.nan else PyFloat.inf (Bool.xor s (decide (m < 0)))
  | PyFloat.finite m _, PyFloat.inf s =>
      if m = 0 then PyFloat.nan else PyFloat.inf (Bool.xor (decide (m < 0)) s)
  | PyFloat.finite m1 e1, PyFloat.finite m2 e2 => roundDyadic (m1 * m2) (e1 + e2)

/-- Binary64 division: the exact quotient rounded once. Python raises
ZeroDivisionError before this point when the divisor is a float zero, so
the zero-divisor arms here are never reached by the evaluator. -/
def PyFloat.div : PyFloat → PyFloat → PyFloat
  | PyFloat.nan, _ => PyFloat.nan
  | _, PyFloat.nan => PyFloat.nan
  | PyFloat.inf _, PyFloat.inf _ => PyFloat.nan
  | PyFloat.inf s, PyFloat.finite m _ =>
      if m = 0 then PyFloat.nan else PyFloat.inf (Bool.xor s (decide (m < 0)))
  | PyFloat.finite _ _, PyFloat.inf _ => PyFloat.finite 0 0
  | PyFloat.finite m1 e1, PyFloat.finite m2 e2 =>
      if m2 = 0 then PyFloat.nan
      else
        let s := Bool.xor (decide (m1 < 0)) (decide (m2 < 0))
        let k := e1 - e2
        if 0 ≤ k then mkFloat opFuel s (m1.natAbs * 2 ^ k.toNat) m2.natAbs
        else mkFloat opFuel s m1.natAbs (m2.natAbs * 2 ^ (-k).toNat)

/-- The Python whitespace set of str.split and of the strip inside float():
the ASCII controls 9-13 and 28-31, space, NEL, NBSP, and the Unicode space
separators. -/
def pyIsSpace (c : Char) : Bool :=
  let n := c.toNat
  decide ((9 ≤ n ∧ n ≤ 13) ∨ (28 ≤ n ∧ n ≤ 31) ∨ n = 32 ∨ n = 133 ∨ n = 160 ∨ n = 5760 ∨
    (8192 ≤ n ∧ n ≤ 8202) ∨ n = 8232 ∨ n = 8233 ∨ n = 8239 ∨ n = 8287 ∨ n = 12288)

/-- One accumulation step of whitespace tokenization; models the combination
expression.strip().split() of Python: split on runs of whitespace, dropping
empty pieces. -/
def splitWsAux : List Char → List Char → List (List Char)
  | [], acc => if acc.isEmpty then [] else [acc.reverse]
  | c :: cs, acc =>
      if pyIsSpace c then
        if acc.isEmpty then splitWsAux cs []
        else acc.reverse :: splitWsAux cs []
      else splitWsAux cs (c :: acc)

/-- Whitespace tokenization of a string, as expression.strip().split(). -/
def pyTokens (s : String) : List String :=
  (splitWsAux s.data []).map String.mk

/-- First code points of the ten-long runs of Unicode decimal digits (the
Nd category), which Python float() accepts wherever ASCII digits go. -/
def ndRangeStarts : List Nat :=
  [0x30, 0x660, 0x6F0, 0x7C0, 0x966, 0x9E6, 0xA66, 0xAE6, 0xB66, 0xBE6, 0xC66, 0xCE6,
   0xD66, 0xDE6, 0xE50, 0xED0, 0xF20, 0x1040, 0x1090, 0x17E0, 0x1810, 0x1946, 0x19D0,
   0x1A80, 0x1A90, 0x1B50, 0x1BB0, 0x1C40, 0x1C50, 0xA620, 0xA8D0, 0xA900, 0xA9D0,
   0xA9F0, 0xAA50, 0xABF0, 0xFF10,
   0x104A0, 0x10D30, 0x11066, 0x110F0, 0x11136, 0x111D0, 0x112F0, 0x11450, 0x114D0,
   0x11650, 0x116C0, 0x11730, 0x118E0, 0x11950, 0x11C50, 0x11D50, 0x11DA0, 0x11F50,
   0x16A60, 0x16AC0, 0x16B50, 0x1D7CE, 0x1D7D8, 0x1D7E2, 0x1D7EC, 0x1D7F6, 0x1E140,
   0x1E2F0, 0x1E4F0, 0x1E950, 0x1FBF0]

/-- Decimal value of a character, when it is a decimal digit. -/
def pyDigitVal (c : Char) : Option Nat :=
  let n := c.toNat
  match ndRangeStarts.find? (fun s => decide (s ≤ n ∧ n < s + 10)) with
  | some s => some (n - s)
  | none => none

/-- Continuation of a digit group: further digits, with single underscores
allowed between digits only. Returns the accumulated value, the digit
count, and the unconsumed rest. -/
def digitsRest : List Char → Nat → Nat → Nat × Nat × List Char
  | [], v, n => (v, n, [])
  | '_' :: c :: rest, v, n =>
      match pyDigitVal c with
      | some d => digitsRest rest (10 * v + d) (n + 1)
      | none => (v, n, '_' :: c :: rest)
  | c :: rest, v, n =>
      match pyDigitVal c with
      | some d => digitsRest rest (10 * v + d) (n + 1)
      | none => (v, n, c :: rest)

/-- A digit group: at least one digit, underscores between digits. -/
def digitsPart : List Char → Option (Nat × Nat × List Char)
  | c :: rest =>
      match pyDigitVal c with
      | some d => some (digitsRest rest d 1)
      | none => none
  | [] => none

/-- Build the float for a parsed literal with digits d, fraction length
fpn and decimal exponent ex: round d * 10^(ex - fpn) to binary64. The fuel
is derived from the digit count n and the exponent magnitude, which bound
the bit sizes of the scaled numerator and denominator. -/
def mkDecadic (neg : Bool) (d : Nat) (n : Nat) (fpn : Nat) (ex : Int) : PyFloat :=
  let e10 : Int := ex - (fpn : Int)
  let fuel := 8 * (n + ex.natAbs) + 4400
  if 0 ≤ e10 then mkFloat fuel neg (d * 10 ^ e10.toNat) 1
  else mkFloat fuel neg d (10 ^ (-e10).toNat)

/-- The optional exponent part: nothing, or e/E, an optional sign and a
digit group, consuming the whole rest. -/
def parseExpPart (neg : Bool) (d : Nat) (n : Nat) (fpn : Nat) : List Char → Option PyFloat
  | [] => some (mkDecadic neg d n fpn 0)
  | c :: rest =>
      if c = 'e' ∨ c = 'E' then
        let sr : Bool × List Char :=
          match rest with
          | '+' :: r => (false, r)
          | '-' :: r => (true, r)
          | r => (false, r)
        match digitsPart sr.2 with
        | some (ev, _, rest3) =>
            if rest3.isEmpty then
              some (mkDecadic neg d (n + ev) fpn (if sr.1 then -(ev : Int) else (ev : Int)))
            else none
        | none => none
      else none

/-- The number part of a float literal: a digit group with an optional dot
and optional fraction group, or a dot followed by a fraction group, then
the optional exponent part. -/
def parseDecimal (neg : Bool) (cs : List Char) : Option PyFloat :=
  match digitsPart cs with
  | some (ip, ipn, rest1) =>
      match rest1 with
      | '.' :: rest2 =>
          match digitsPart rest2 with
          | some (fp, fpn, rest3) => parseExpPart neg (ip * 10 ^ fpn + fp) (ipn + fpn) fpn rest3
          | none => parseExpPart neg ip ipn 0 rest2
      | _ => parseExpPart neg ip ipn 0 rest1
  | none =>
      match cs with
      | '.' :: rest2 =>
          match digitsPart rest2 with
          | some (fp, fpn, rest3) => parseExpPart neg fp fpn fpn rest3
          | none => none
      | _ => none

/-- Strip of surrounding whitespace, as float() performs on its argument. -/
def stripPy (cs : List Char) : List Char :=
  ((cs.dropWhile pyIsSpace).reverse.dropWhile pyIsSpace).reverse

/-- Python float() on a string: strip whitespace, read an optional sign,
then the case-insensitive keywords inf, infinity or nan, or a decimal
literal with optional fraction, exponent, digit-group underscores and
Unicode decimal digits, rounded to binary64. A none models the ValueError
float() raises on everything else. -/
def parseFloat (s : String) : Option PyFloat :=
  let cs := stripPy s.data
  let sr : Bool × List Char :=
    match cs with
    | '+' :: r => (false, r)
    | '-' :: r => (true, r)
    | r => (false, r)
  let low := sr.2.map Char.toLower
  if low = "inf".data ∨ low = "infinity".data then some (PyFloat.inf sr.1)
  else if low = "nan".data then some PyFloat.nan
  else parseDecimal sr.1 sr.2

/-- The four operations of the ops dictionary in math_tool.py. -/
inductive Op where
  | add
  | sub
  | mul
  | div
deriving DecidableEq

/-- Lookup in the ops dictionary: ops.get(op_char). -/
def opsGet (s : String) : Option Op :=
  if s = "+" then some Op.add
  else if s = "-" then some Op.sub
  else if s = "*" then some Op.mul
  else if s = "/" then some Op.div
  else none

/-- Dispatch of the looked-up operation to float arithmetic. -/
def floatApply : Op → PyFloat → PyFloat → PyFloat
  | Op.add, x, y => x.add y
  | Op.sub, x, y => x.sub y
  | Op.mul, x, y => x.mul y
  | Op.div, x, y => x.div y

/-- Error message for a token count different from three. -/
def formatErrMsg : String :=
  "Invalid math expression format. Expected \x27number operator number\x27 (e.g., \x2742 * 7\x27)."

/-- Error message for an unparsable numeric token. -/
def invalidNumberMsg : String :=
  "Invalid numbers in expression. Please ensure numbers are valid (e.g., \x2710\x27, \x275.5\x27)."

/-- Error message for an operator outside the ops dictionary. -/
def unsupportedOpMsg (op : String) : String :=
  "Unsupported operator: \x27" ++ op ++ "\x27. Only +, -, *, / are supported."

/-- Error message for division by zero. -/
def divZeroMsg : String := "Division by zero is not allowed."

/-- The catch-all message produced when int(result) raises on a nan result:
int() raises ValueError with this text, caught by the generic handler. -/
def nanIntMsg : String :=
  "An unexpected error occurred during math evaluation: cannot convert float NaN to integer"

/-- The catch-all message produced when int(result) raises on an infinite
result: int() raises OverflowError with this text, caught by the generic
handler. -/
def infIntMsg : String :=
  "An unexpected error occurred during math evaluation: cannot convert float infinity to integer"

/-- The integer-or-float typing of a finite result: int(result) when
result == int(result), the float itself otherwise. A finite float is whole
exactly when the denominator of its exact value divides the numerator, and
the truncation of int() is then exact. -/
def intOfWhole (f : Frac) (orig : PyFloat) : MathResult :=
  if f.num % (f.den : Int) = 0 then MathResult.int (f.num / (f.den : Int))
  else MathResult.float orig

/-- The final step of evaluate_math_expression, return int(result) if
result == int(result) else result: on nan and infinity the int() call
raises, the generic except turns it into the catch-all error string; on a
finite float the result is typed through intOfWhole. -/
def typedResult : PyFloat → MathResult
  | PyFloat.nan => MathResult.err nanIntMsg
  | PyFloat.inf _ => MathResult.err infIntMsg
  | PyFloat.finite m e => intOfWhole (PyFloat.toFrac (PyFloat.finite m e)) (PyFloat.finite m e)

/-- Shallow embedding of evaluate_math_expression from
src/app/tools/math_tool.py: tokenize, parse the two numbers (ValueError
branches), look up the operator, guard the ZeroDivisionError that float
division raises exactly when the divisor is a float zero, apply the
binary64 operation, then type the result. -/
def evaluate_math_expression (expression : String) : MathResult :=
  match pyTokens expression with
  | [p0, p1, p2] =>
      match parseFloat p0 with
      | none => MathResult.err invalidNumberMsg
      | some num1 =>
          match parseFloat p2 with
          | none => MathResult.err invalidNumberMsg
          | some num2 =>
              match opsGet p1 with
              | none => MathResult.err (unsupportedOpMsg p1)
              | some o =>
                  if o = Op.div ∧ num2.isZero = true then MathResult.err divZeroMsg
                  else typedResult (floatApply o num1 num2)
  | _ => MathResult.err formatErrMsg

example : evaluate_math_expression "10 + 5" = MathResult.int 15 := by decide

example : evaluate_math_expression "20 / 4" = MathResult.int 5 := by decide

example : evaluate_math_expression "10 / 4"
    = MathResult.float (PyFloat.finite 5629499534213120 (-51)) := by decide

example : evaluate_math_expression "-2.5 * 4" = MathResult.int (-10) := by decide

example : evaluate_math_expression "1e5 + 2" = MathResult.int 100002 := by decide

example : evaluate_math_expression "10\x0c+\x0c5" = MathResult.int 15 := by decide

example : evaluate_math_expression "1_0 * 2" = MathResult.int 20 := by decide

example : evaluate_math_expression "inf + 1" = MathResult.err infIntMsg := by decide

example : evaluate_math_expression "nan * 3" = MathResult.err nanIntMsg := by decide

example : evaluate_math_expression "7 / 0" = MathResult.err divZeroMsg := by decide

example : evaluate_math_expression "7 / -0.0" = MathResult.err divZeroMsg := by decide

example : evaluate_math_expression "abc + 2" = MathResult.err invalidNumberMsg := by decide

example : evaluate_math_expression "5 ^ 2" = MathResult.err (unsupportedOpMsg "^") := by decide

example : evaluate_math_expression "1 2" = MathResult.err formatErrMsg := by decide

example : evaluate_math_expression "0.1 + 0.2"
    = MathResult.float (PyFloat.finite 5404319552844596 (-54)) := by decide

example : evaluate_math_expression "9007199254740993 + 0"
    = MathResult.int 9007199254740992 := by decide

/-! Weather tool. The outbound HTTP world of src/app/tools/weather.py is an
explicit environment: the configured API key and the function from request
parameters to the outcome of requests.get. -/

/-- Query parameters of the outbound request: \x7bq, appid, units\x7d. -/
structure RequestParams where
  q : String
  appid : String
  units : String
deriving DecidableEq

/-- The parsed JSON body of a weather response, keeping exactly the fields
that get_weather reads. Temperature is kept as its rendered form, since the
code only checks it against None and interpolates it into a string. The
description field is the first weather list entry when present. -/
structure WeatherData where
  cod : Option Int
  message : Option String
  temp : Option String
  description : Option String
  name : Option String
  country : Option String
deriving DecidableEq

/-- Outcome of requests.get: a response with an HTTP status, the text that a
raised HTTPError would stringify to, and the decoded JSON body; or a raised
RequestException carrying its message. -/
inductive HttpResult where
  | ok (status : Nat) (statusText : String) (body : WeatherData)
  | exc (msg : String)

/-- The environment of get_weather: the OPENWEATHER_API_KEY value and the
network. -/
structure WeatherEnv where
  apiKey : String
  http : RequestParams → HttpResult

/-- Rendering of a possibly missing JSON field inside an f-string: Python
prints None for a missing value. -/
def pyOptStr : Option String → String
  | none => "None"
  | some s => s

/-- The key-configuration notice returned without any network call. -/
def weatherKeyMsg : String :=
  "Weather API key not configured. Please set OPENWEATHER_API_KEY in your environment."

/-- Shallow embedding of get_weather from src/app/tools/weather.py. The
second component is the list of outbound HTTP requests issued during the
call, so that the no-network-call property is visible. raise_for_status
raises exactly for statuses in [400, 600), and that HTTPError is a
RequestException, so it lands in the network-error handler. -/
def get_weather (location : String) (env : WeatherEnv) : String × List RequestParams :=
  if env.apiKey = "" ∨ env.apiKey = "YOUR_OPENWEATHER_API_KEY" then
    (weatherKeyMsg, [])
  else
    let params : RequestParams := ⟨location, env.apiKey, "metric"⟩
    match env.http params with
    | HttpResult.exc e =>
        ("Error fetching weather for " ++ location ++ ": A network error occurred: " ++ e,
          [params])
    | HttpResult.ok status statusText data =>
        if 400 ≤ status ∧ status < 600 then
          ("Error fetching weather for " ++ location ++ ": A network error occurred: "
            ++ statusText, [params])
        else if data.cod = some 200 then
          match data.temp with
          | some t =>
              ("It\x27s " ++ t ++ "°C and " ++ data.description.getD "unknown" ++ " in "
                ++ pyOptStr data.name ++ ", " ++ pyOptStr data.country ++ ".", [params])
          | none =>
              ("Weather data available for " ++ pyOptStr data.name ++ ", "
                ++ pyOptStr data.country ++ ", but temperature is missing.", [params])
        else
          ("Could not retrieve weather for " ++ location ++ ": "
            ++ data.message.getD "Unknown error from API", [params])

/-- Calling get_weather with the location argument absent: Python fills in
the declared default parameter value "Chicago". -/
def get_weather_noarg (env : WeatherEnv) : String × List RequestParams :=
  get_weather "Chicago" env

/-! Result reporter. process_query_with_agent_streaming iterates over the
chunks yielded by agent_executor.stream; the stream is passed in as the list
of chunks it would yield, together with the exception (when any) the
generator raises when pulled past those chunks. The except block of the
Python function runs exactly when the for loop was not left by break. -/

/-- An element of the actions list of a chunk: an AgentAction carrying its
tool name, or any other object, on which the isinstance check fails. -/
inductive StreamItem where
  | agentAction (tool : String)
  | other
deriving DecidableEq

/-- One chunk of the executor stream, keeping the three keys the loop reads:
the actions list when the key is present, the output value when present, and
the output carried by an AgentFinish under the agent key when present. -/
structure Chunk where
  actions : Option (List StreamItem)
  output : Option String
  agentFinish : Option String
deriving DecidableEq

/-- The local state of the loop: tool_used, final_result, tool_identified. -/
structure ReporterState where
  tool_used : String
  final_result : String
  tool_identified : Bool
deriving DecidableEq

/-- Initial values of the three locals. -/
def initialState : ReporterState :=
  ⟨"llm", "An unexpected error occurred or no response from agent.", false⟩

/-- The if/elif chain mapping a raw tool name to its public tag; a name
outside the three leaves tool_used unchanged. -/
def mapTool (raw current : String) : String :=
  if raw = "WeatherTool" then "weather"
  else if raw = "MathTool" then "math"
  else if raw = "LLMTool" then "llm"
  else current

/-- The Action event a chunk carries: the first element of a present,
non-empty actions list, when that element is an AgentAction. -/
def chunkFirstAction (c : Chunk) : Option String :=
  match c.actions with
  | some (StreamItem.agentAction t :: _) => some t
  | _ => none

/-- Processing of the actions key of one chunk: the first identified
AgentAction sets tool_used through the mapping and raises tool_identified;
afterwards action chunks are ignored. -/
def applyActions (s : ReporterState) (c : Chunk) : ReporterState :=
  match chunkFirstAction c with
  | some raw =>
      if s.tool_identified then s
      else ⟨mapTool raw s.tool_used, s.final_result, true⟩
  | none => s

/-- One iteration of the for loop on one chunk; the Bool is true when the
loop breaks, which happens on an output key or an AgentFinish, after the
actions key of the same chunk has been processed. -/
def stepChunk (s : ReporterState) (c : Chunk) : ReporterState × Bool :=
  match c.output with
  | some o => (⟨(applyActions s c).tool_used, o, (applyActions s c).tool_identified⟩, true)
  | none =>
      match c.agentFinish with
      | some o => (⟨(applyActions s c).tool_used, o, (applyActions s c).tool_identified⟩, true)
      | none => (applyActions s c, false)

/-- The whole for loop: fold stepChunk over the chunks, stopping on break.
The Bool of the result records whether the loop was left by break. -/
def consume : ReporterState → List Chunk → ReporterState × Bool
  | s, [] => (s, false)
  | s, c :: rest =>
      match stepChunk s c with
      | (s1, true) => (s1, true)
      | (s1, false) => consume s1 rest

/-- The Structured Response: the dict serialized at the end of
process_query_with_agent_streaming. -/
structure StructuredResponse where
  query : String
  tool_used : String
  result : String
deriving DecidableEq

/-- The error text built in the except block of the Python function. -/
def agentErrorMsg (e : String) : String :=
  "An error occurred during agent execution: " ++ e

/-- The try/for/except part of process_query_with_agent_streaming: run the
loop over the yielded chunks; when the loop consumed every chunk without
breaking and the generator then raises, the except block overwrites
final_result with the error description and resets tool_used to "llm". -/
def runReporter (chunks : List Chunk) (exc : Option String) (query : String) :
    StructuredResponse :=
  match consume initialState chunks with
  | (s, true) => ⟨query, s.tool_used, s.final_result⟩
  | (s, false) =>
      match exc with
      | some e => ⟨query, "llm", agentErrorMsg e⟩
      | none => ⟨query, s.tool_used, s.final_result⟩

/-- One hexadecimal digit, lower case, of the low four bits selected by the
given shift; used by the \u escapes of json.dumps. -/
def hexDigit (n : Nat) : Char :=
  match n % 16 with
  | 0 => '0'
  | 1 => '1'
  | 2 => '2'
  | 3 => '3'
  | 4 => '4'
  | 5 => '5'
  | 6 => '6'
  | 7 => '7'
  | 8 => '8'
  | 9 => '9'
  | 10 => 'a'
  | 11 => 'b'
  | 12 => 'c'
  | 13 => 'd'
  | 14 => 'e'
  | _ => 'f'

/-- A \uXXXX escape sequence for a code unit below 65536. -/
def uEscape (n : Nat) : List Char :=
  ['\\', 'u', hexDigit (n / 4096), hexDigit (n / 256), hexDigit (n / 16), hexDigit n]

/-- json.dumps escaping of one character with the default ensure_ascii=True:
the two-character escapes for quote, backslash and the common controls,
\u escapes for the other controls and for everything outside printable
ASCII, surrogate pairs beyond the basic plane. -/
def escapeChar (c : Char) : List Char :=
  if c = '"' then ['\\', '"']
  else if c = '\\' then ['\\', '\\']
  else if c = '\n' then ['\\', 'n']
  else if c = '\r' then ['\\', 'r']
  else if c = '\t' then ['\\', 't']
  else if c.toNat = 8 then ['\\', 'b']
  else if c.toNat = 12 then ['\\', 'f']
  else if c.toNat < 32 then uEscape c.toNat
  else if c.toNat < 127 then [c]
  else if c.toNat < 65536 then uEscape c.toNat
  else uEscape (55296 + (c.toNat - 65536) / 1024) ++ uEscape (56320 + (c.toNat - 65536) % 1024)

/-- json.dumps rendering of a string value. -/
def jsonString (s : String) : String :=
  String.mk ('"' :: (s.data.map escapeChar).flatten ++ ['"'])

/-- json.dumps of the response dict, fields in insertion order with the
default separators. -/
def jsonDumps (r : StructuredResponse) : String :=
  "\x7b\"query\": " ++ jsonString r.query ++ ", \"tool_used\": " ++ jsonString r.tool_used
    ++ ", \"result\": " ++ jsonString r.result ++ "\x7d"

/-- The generator as a whole: the list of values it yields. It yields exactly
one string, the serialized response followed by a newline. -/
def process_query_with_agent_streaming (chunks : List Chunk) (exc : Option String)
    (query : String) : List String :=
  [jsonDumps (runReporter chunks exc query) ++ "\n"]

/-- The public tag of a raw tool name, defined only for the three registered
tools; the spec side of the first-Action-event property. -/
def tagOf (t : String) : Option String :=
  if t = "WeatherTool" then some "weather"
  else if t = "MathTool" then some "math"
  else if t = "LLMTool" then some "llm"
  else none

/-- The tool name of the first Action event of a stream. -/
def firstActionName : List Chunk → Option String
  | [] => none
  | c :: rest =>
      match chunkFirstAction c with
      | some t => some t
      | none => firstActionName rest

/-- True when no chunk strictly before the first Action event carries an
output or an AgentFinish, so that the first Action event is observed before
the loop breaks; streams produced by the executor have this shape, since
their output chunk comes last. -/
def cleanUntilAction : List Chunk → Bool
  | [] => true
  | c :: rest =>
      match chunkFirstAction c with
      | some _ => true
      | none =>
          if c.output.isSome || c.agentFinish.isSome then false else cleanUntilAction rest

/-! Helper lemmas about the reporter loop. -/

lemma applyActions_of_no_action (s : ReporterState) (c : Chunk)
    (h : chunkFirstAction c = none) : applyActions s c = s := by
  unfold applyActions
  rw [h]

lemma applyActions_of_identified (s : ReporterState) (c : Chunk)
    (h : s.tool_identified = true) : applyActions s c = s := by
  unfold applyActions
  cases hc : chunkFirstAction c
  · rfl
  · simp [h]

lemma applyActions_of_action (s : ReporterState) (c : Chunk) (t : String)
    (h : chunkFirstAction c = some t) (hid : s.tool_identified = false) :
    applyActions s c = ⟨mapTool t s.tool_used, s.final_result, true⟩ := by
  unfold applyActions
  rw [h, hid]
  rfl

lemma stepChunk_out (s : ReporterState) (c : Chunk) (o : String) (h : c.output = some o) :
    stepChunk s c
      = (⟨(applyActions s c).tool_used, o, (applyActions s c).tool_identified⟩, true) := by
  unfold stepChunk
  rw [h]

lemma stepChunk_fin (s : ReporterState) (c : Chunk) (o : String)
    (h1 : c.output = none) (h2 : c.agentFinish = some o) :
    stepChunk s c
      = (⟨(applyActions s c).tool_used, o, (applyActions s c).tool_identified⟩, true) := by
  unfold stepChunk
  rw [h1, h2]

lemma stepChunk_cont (s : ReporterState) (c : Chunk)
    (h1 : c.output = none) (h2 : c.agentFinish = none) :
    stepChunk s c = (applyActions s c, false) := by
  unfold stepChunk
  rw [h1, h2]

lemma consume_cons (s : ReporterState) (c : Chunk) (rest : List Chunk) :
    consume s (c :: rest)
      = match stepChunk s c with
        | (s1, true) => (s1, true)
        | (s1, false) => consume s1 rest := rfl

lemma consume_of_identified : ∀ (chunks : List Chunk) (s : ReporterState),
    s.tool_identified = true →
    (consume s chunks).1.tool_used = s.tool_used ∧
      (consume s chunks).1.tool_identified = true
  | [], s, h => ⟨rfl, h⟩
  | c :: rest, s, h => by
      have ha : applyActions s c = s := applyActions_of_identified s c h
      rw [consume_cons]
      cases hco : c.output with
      | some o =>
          rw [stepChunk_out s c o hco, ha]
          exact ⟨rfl, h⟩
      | none =>
          cases hcf : c.agentFinish with
          | some o =>
              rw [stepChunk_fin s c o hco hcf, ha]
              exact ⟨rfl, h⟩
          | none =>
              rw [stepChunk_cont s c hco hcf, ha]
              exact consume_of_identified rest s h

lemma consume_of_no_action : ∀ (chunks : List Chunk) (s : ReporterState),
    firstActionName chunks = none →
    (consume s chunks).1.tool_used = s.tool_used ∧
      (consume s chunks).1.tool_identified = s.tool_identified
  | [], s, _ => ⟨rfl, rfl⟩
  | c :: rest, s, h => by
      have hc : chunkFirstAction c = none := by
        unfold firstActionName at h
        cases hc : chunkFirstAction c
        · rfl
        · rw [hc] at h
          cases h
      have hrest : firstActionName rest = none := by
        unfold firstActionName at h
        rw [hc] at h
        exact h
      have ha : applyActions s c = s := applyActions_of_no_action s c hc
      rw [consume_cons]
      cases hco : c.output with
      | some o =>
          rw [stepChunk_out s c o hco, ha]
          exact ⟨rfl, rfl⟩
      | none =>
          cases hcf : c.agentFinish with
          | some o =>
              rw [stepChunk_fin s c o hco hcf, ha]
              exact ⟨rfl, rfl⟩
          | none =>
              rw [stepChunk_cont s c hco hcf, ha]
              exact consume_of_no_action rest s hrest

lemma consume_of_first_action : ∀ (chunks : List Chunk) (s : ReporterState) (t : String),
    s.tool_identified = false →
    firstActionName chunks = some t →
    cleanUntilAction chunks = true →
    (consume s chunks).1.tool_used = mapTool t s.tool_used ∧
      (consume s chunks).1.tool_identified = true
  | [], _, _, _, h, _ => by cases h
  | c :: rest, s, t, hid, h, hclean => by
      cases hc : chunkFirstAction c with
      | some t0 =>
          have ht : t0 = t := by
            unfold firstActionName at h
            rw [hc] at h
            exact Option.some.inj h
          subst ht
          have ha := applyActions_of_action s c t0 hc hid
          rw [consume_cons]
          cases hco : c.output with
          | some o =>
              rw [stepChunk_out s c o hco, ha]
              exact ⟨rfl, rfl⟩
          | none =>
              cases hcf : c.agentFinish with
              | some o =>
                  rw [stepChunk_fin s c o hco hcf, ha]
                  exact ⟨rfl, rfl⟩
              | none =>
                  rw [stepChunk_cont s c hco hcf, ha]
                  exact consume_of_identified rest _ rfl
      | none =>
          have hrest : firstActionName rest = some t := by
            unfold firstActionName at h
            rw [hc] at h
            exact h
          have hterm : c.output.isSome = false ∧ c.agentFinish.isSome = false ∧
              cleanUntilAction rest = true := by
            unfold cleanUntilAction at hclean
            rw [hc] at hclean
            cases ho : c.output.isSome <;> cases hf : c.agentFinish.isSome <;>
              rw [ho, hf] at hclean <;> simp_all
          have hco : c.output = none := Option.not_isSome_iff_eq_none.mp (by
            rw [hterm.1]
            exact Bool.false_ne_true)
          have hcf : c.agentFinish = none := Option.not_isSome_iff_eq_none.mp (by
            rw [hterm.2.1]
            exact Bool.false_ne_true)
          have ha : applyActions s c = s := applyActions_of_no_action s c hc
          rw [consume_cons, stepChunk_cont s c hco hcf, ha]
          exact consume_of_first_action rest s t hid hrest hterm.2.2

lemma mapTool_of_tag_some (t cur tag : String) (h : tagOf t = some tag) :
    mapTool t cur = tag := by
  unfold tagOf at h
  unfold mapTool
  split_ifs at h ⊢ <;> simp_all

lemma mapTool_of_tag_none (t cur : String) (h : tagOf t = none) : mapTool t cur = cur := by
  unfold tagOf at h
  unfold mapTool
  split_ifs at h ⊢
  simp_all

lemma consume_of_unrecognized : ∀ (chunks : List Chunk) (s : ReporterState) (t : String),
    s.tool_used = "llm" → s.tool_identified = false →
    firstActionName chunks = some t → tagOf t = none →
    (consume s chunks).1.tool_used = "llm"
  | [], _, _, _, _, h, _ => by cases h
  | c :: rest, s, t, htool, hid, h, htag => by
      cases hc : chunkFirstAction c with
      | some t0 =>
          have ht : t0 = t := by
            unfold firstActionName at h
            rw [hc] at h
            exact Option.some.inj h
          subst ht
          have ha := applyActions_of_action s c t0 hc hid
          have hmap : mapTool t0 s.tool_used = "llm" := by
            rw [mapTool_of_tag_none t0 s.tool_used htag]
            exact htool
          rw [consume_cons]
          cases hco : c.output with
          | some o =>
              rw [stepChunk_out s c o hco, ha]
              exact hmap
          | none =>
              cases hcf : c.agentFinish with
              | some o =>
                  rw [stepChunk_fin s c o hco hcf, ha]
                  exact hmap
              | none =>
                  rw [stepChunk_cont s c hco hcf, ha]
                  have := consume_of_identified rest
                    ⟨mapTool t0 s.tool_used, s.final_result, true⟩ rfl
                  rw [this.1]
                  exact hmap
      | none =>
          have hrest : firstActionName rest = some t := by
            unfold firstActionName at h
            rw [hc] at h
            exact h
          have ha : applyActions s c = s := applyActions_of_no_action s c hc
          rw [consume_cons]
          cases hco : c.output with
          | some o =>
              rw [stepChunk_out s c o hco, ha]
              exact htool
          | none =>
              cases hcf : c.agentFinish with
              | some o =>
                  rw [stepChunk_fin s c o hco hcf, ha]
                  exact htool
              | none =>
                  rw [stepChunk_cont s c hco hcf, ha]
                  exact consume_of_unrecognized rest s t htool hid hrest htag

lemma consume_no_break : ∀ (chunks : List Chunk) (s : ReporterState),
    (∀ c ∈ chunks, c.output = none ∧ c.agentFinish = none) →
    (consume s chunks).2 = false
  | [], _, _ => rfl
  | c :: rest, s, h => by
      have hc := h c (List.mem_cons_self c rest)
      rw [consume_cons, stepChunk_cont s c hc.1 hc.2]
      exact consume_no_break rest _ (fun c2 hc2 => h c2 (List.mem_cons_of_mem c hc2))

lemma applyActions_tag (s : ReporterState) (c : Chunk)
    (h : s.tool_used = "weather" ∨ s.tool_used = "math" ∨ s.tool_used = "llm") :
    (applyActions s c).tool_used = "weather" ∨ (applyActions s c).tool_used = "math" ∨
      (applyActions s c).tool_used = "llm" := by
  unfold applyActions
  cases hc : chunkFirstAction c with
  | none => exact h
  | some raw =>
      cases hid : s.tool_identified
      · simp only [Bool.false_eq_true, if_false]
        unfold mapTool
        split_ifs <;> simp_all
      · simp only [if_true]
        exact h

lemma consume_tag : ∀ (chunks : List Chunk) (s : ReporterState),
    (s.tool_used = "weather" ∨ s.tool_used = "math" ∨ s.tool_used = "llm") →
    ((consume s chunks).1.tool_used = "weather" ∨ (consume s chunks).1.tool_used = "math" ∨
      (consume s chunks).1.tool_used = "llm")
  | [], _, h => h
  | c :: rest, s, h => by
      have ha := applyActions_tag s c h
      rw [consume_cons]
      cases hco : c.output with
      | some o =>
          rw [stepChunk_out s c o hco]
          exact ha
      | none =>
          cases hcf : c.agentFinish with
          | some o =>
              rw [stepChunk_fin s c o hco hcf]
              exact ha
          | none =>
              rw [stepChunk_cont s c hco hcf]
              exact consume_tag rest _ ha

lemma runReporter_query (chunks : List Chunk) (exc : Option String) (q : String) :
    (runReporter chunks exc q).query = q := by
  unfold runReporter
  rcases hc : consume initialState chunks with ⟨s, b⟩
  cases b <;> cases exc <;> rfl

lemma runReporter_tag (chunks : List Chunk) (exc : Option String) (q : String) :
    (runReporter chunks exc q).tool_used = "weather" ∨
      (runReporter chunks exc q).tool_used = "math" ∨
      (runReporter chunks exc q).tool_used = "llm" := by
  have h := consume_tag chunks initialState (Or.inr (Or.inr rfl))
  unfold runReporter
  rcases hc : consume initialState chunks with ⟨s, b⟩
  rw [hc] at h
  cases b <;> cases exc <;> simp_all

lemma append_ne_empty_of_left (s t : String) (h : s.data ≠ []) : s ++ t ≠ "" := by
  intro he
  have hd := congrArg String.data he
  rw [String.data_append] at hd
  exact h (List.append_eq_nil.mp hd).1

lemma agentErrorMsg_ne_empty (e : String) : agentErrorMsg e ≠ "" := by
  unfold agentErrorMsg
  exact append_ne_empty_of_left _ e (by decide)

lemma hexDigit_ne_newline (n : Nat) : hexDigit n ≠ '\n' := by
  unfold hexDigit
  split <;> decide

lemma uEscape_no_newline (n : Nat) : ¬ '\n' ∈ uEscape n := by
  intro h
  simp only [uEscape, List.mem_cons, List.not_mem_nil, or_false] at h
  rcases h with h | h | h | h | h | h
  · exact absurd h (by decide)
  · exact absurd h (by decide)
  · exact hexDigit_ne_newline _ h.symm
  · exact hexDigit_ne_newline _ h.symm
  · exact hexDigit_ne_newline _ h.symm
  · exact hexDigit_ne_newline _ h.symm

lemma pair_no_newline (a b : Char) (ha : a ≠ '\n') (hb : b ≠ '\n') :
    ¬ '\n' ∈ ([a, b] : List Char) := by
  intro h
  rcases List.mem_cons.mp h with h | h
  · exact ha h.symm
  · rcases List.mem_cons.mp h with h | h
    · exact hb h.symm
    · simp at h

lemma escapeChar_no_newline (c : Char) : ¬ '\n' ∈ escapeChar c := by
  unfold escapeChar
  by_cases h1 : c = '"'
  · rw [if_pos h1]
    exact pair_no_newline '\\' '"' (by decide) (by decide)
  rw [if_neg h1]
  by_cases h2 : c = '\\'
  · rw [if_pos h2]
    exact pair_no_newline '\\' '\\' (by decide) (by decide)
  rw [if_neg h2]
  by_cases h3 : c = '\n'
  · rw [if_pos h3]
    exact pair_no_newline '\\' 'n' (by decide) (by decide)
  rw [if_neg h3]
  by_cases h4 : c = '\r'
  · rw [if_pos h4]
    exact pair_no_newline '\\' 'r' (by decide) (by decide)
  rw [if_neg h4]
  by_cases h5 : c = '\t'
  · rw [if_pos h5]
    exact pair_no_newline '\\' 't' (by decide) (by decide)
  rw [if_neg h5]
  by_cases h6 : c.toNat = 8
  · rw [if_pos h6]
    exact pair_no_newline '\\' 'b' (by decide) (by decide)
  rw [if_neg h6]
  by_cases h7 : c.toNat = 12
  · rw [if_pos h7]
    exact pair_no_newline '\\' 'f' (by decide) (by decide)
  rw [if_neg h7]
  by_cases h8 : c.toNat < 32
  · rw [if_pos h8]
    exact uEscape_no_newline _
  rw [if_neg h8]
  by_cases h9 : c.toNat < 127
  · rw [if_pos h9]
    intro hm
    exact h3 (List.mem_singleton.mp hm).symm
  rw [if_neg h9]
  by_cases h10 : c.toNat < 65536
  · rw [if_pos h10]
    exact uEscape_no_newline _
  rw [if_neg h10]
  intro hm
  rcases List.mem_append.mp hm with h | h
  · exact uEscape_no_newline _ h
  · exact uEscape_no_newline _ h

lemma jsonString_no_newline (s : String) : ¬ '\n' ∈ (jsonString s).data := by
  intro h
  have hd : (jsonString s).data = '"' :: ((s.data.map escapeChar).flatten ++ ['"']) := rfl
  rw [hd] at h
  rcases List.mem_cons.mp h with h | h
  · exact absurd h (by decide)
  · rcases List.mem_append.mp h with h | h
    · rcases List.mem_flatten.mp h with ⟨l, hl, hmem⟩
      rcases List.mem_map.mp hl with ⟨c, _, rfl⟩
      exact escapeChar_no_newline c hmem
    · simp at h

lemma jsonDumps_no_newline (r : StructuredResponse) : ¬ '\n' ∈ (jsonDumps r).data := by
  intro h
  unfold jsonDumps at h
  simp only [String.data_append, List.mem_append] at h
  rcases h with ((((((h | h) | h) | h) | h) | h) | h)
  · exact absurd h (by decide)
  · exact jsonString_no_newline _ h
  · exact absurd h (by decide)
  · exact jsonString_no_newline _ h
  · exact absurd h (by decide)
  · exact jsonString_no_newline _ h
  · exact absurd h (by decide)

/-! Concrete stream chunks used by the witnesses and counterexamples. -/

/-- A chunk whose Action event names MathTool. -/
def mathActionChunk : Chunk := ⟨some [StreamItem.agentAction "MathTool"], none, none⟩

/-- A chunk whose Action event names a tool outside the registry. -/
def searchActionChunk : Chunk := ⟨some [StreamItem.agentAction "SearchTool"], none, none⟩

/-- A terminal chunk carrying the output key. -/
def finalOutputChunk : Chunk := ⟨none, some "4", none⟩

/-- C1: over a run of the result reporter on an ordered event stream, in
which the first Action event (when there is one) is observed before any
terminal output chunk, tool_used in the Structured Response equals the
public tag of that first Action event tool name, for the three registered
names; later Action events never change it, since the statement holds for
every continuation of the stream; and when the stream carries no Action
event at all, tool_used is "llm". -/
theorem first_action_sets_tag (q : String) (chunks : List Chunk) :
    (∀ t tag, firstActionName chunks = some t → tagOf t = some tag →
      cleanUntilAction chunks = true →
      (runReporter chunks none q).tool_used = tag) ∧
    (∀ exc, firstActionName chunks = none →
      (runReporter chunks exc q).tool_used = "llm") := by
  constructor
  · intro t tag ht htag hclean
    have h := consume_of_first_action chunks initialState t rfl ht hclean
    have hmap : mapTool t initialState.tool_used = tag := mapTool_of_tag_some t _ tag htag
    unfold runReporter
    rcases hc : consume initialState chunks with ⟨s, b⟩
    rw [hc] at h
    cases b
    · exact h.1.trans hmap
    · exact h.1.trans hmap
  · intro exc hnone
    have h := consume_of_no_action chunks initialState hnone
    unfold runReporter
    rcases hc : consume initialState chunks with ⟨s, b⟩
    rw [hc] at h
    cases b <;> cases exc <;> first | rfl | exact h.1

/-- Witness for C1 on a concrete stream: a MathTool action followed by the
final output gives the tag "math". -/
theorem first_action_sets_tag_witness :
    (runReporter [mathActionChunk, finalOutputChunk] none "2 + 2").tool_used = "math" :=
  (first_action_sets_tag "2 + 2" [mathActionChunk, finalOutputChunk]).1 "MathTool" "math"
    (by decide) (by decide) (by decide)

/-- C10: when the first Action event carries a tool name outside the three
registered ones, the final tool_used is "llm" whatever comes later in the
stream — in particular even when a later Action event carries a recognized
name — and, when that first Action event is observed, tool_identified is
raised by it. -/
theorem unrecognized_first_action_keeps_llm (chunks : List Chunk) (exc : Option String)
    (q t : String) (h1 : firstActionName chunks = some t) (h2 : tagOf t = none) :
    (runReporter chunks exc q).tool_used = "llm" ∧
    (cleanUntilAction chunks = true → (consume initialState chunks).1.tool_identified = true) := by
  constructor
  · have h := consume_of_unrecognized chunks initialState t rfl rfl h1 h2
    unfold runReporter
    rcases hc : consume initialState chunks with ⟨s, b⟩
    rw [hc] at h
    cases b <;> cases exc <;> first | rfl | exact h
  · intro hclean
    exact (consume_of_first_action chunks initialState t rfl h1 hclean).2

/-- Witness for C10: an unrecognized SearchTool action followed by a
recognized MathTool action still reports "llm". -/
theorem unrecognized_first_action_keeps_llm_witness :
    (runReporter [searchActionChunk, mathActionChunk, finalOutputChunk] none
      "find it").tool_used = "llm" :=
  (unrecognized_first_action_keeps_llm [searchActionChunk, mathActionChunk, finalOutputChunk]
    none "find it" "SearchTool" (by decide) (by decide)).1

/-- Counterexample to C2 as stated: on a stream whose Action event already
identified MathTool, a subsequent exception produces tool_used "llm", not
the previously held "math": the except block overwrites the tag. -/
theorem exception_discards_tool_tag_counterexample :
    (consume initialState [mathActionChunk]).1.tool_used = "math" ∧
    (runReporter [mathActionChunk] (some "boom") "what is 2 + 2").tool_used = "llm" ∧
    ¬ (runReporter [mathActionChunk] (some "boom") "what is 2 + 2").tool_used = "math" :=
  ⟨by decide, by decide, by decide⟩

/-- C2 amended: when the loop raises before any Final Answer (no chunk of
the stream is terminal, and the generator then raises), the response has
result set to the non-empty error description and tool_used reset to "llm"
unconditionally, discarding any tag a prior Action event had set. -/
theorem exception_error_response (chunks : List Chunk) (e q : String)
    (hnb : ∀ c ∈ chunks, c.output = none ∧ c.agentFinish = none) :
    runReporter chunks (some e) q = ⟨q, "llm", agentErrorMsg e⟩ ∧ agentErrorMsg e ≠ "" := by
  refine ⟨?_, agentErrorMsg_ne_empty e⟩
  have h := consume_no_break chunks initialState hnb
  unfold runReporter
  rcases hc : consume initialState chunks with ⟨s, b⟩
  rw [hc] at h
  cases b
  · rfl
  · cases h

/-- Witness for the amended C2 on a concrete stream with a prior MathTool
action. -/
theorem exception_error_response_witness :
    runReporter [mathActionChunk] (some "boom") "what is 2 + 2"
      = ⟨"what is 2 + 2", "llm", agentErrorMsg "boom"⟩ ∧ agentErrorMsg "boom" ≠ "" :=
  exception_error_response [mathActionChunk] "boom" "what is 2 + 2" (by decide)

/-- C8: for every stream and every exception outcome, the generator yields
exactly one value, the serialization of one response object with exactly the
fields query (the original query), tool_used (one of the three public tags)
and result, terminated by a newline; the serialized object itself contains
no newline, so the yielded value is a single newline-terminated line. -/
theorem single_response_line (chunks : List Chunk) (exc : Option String) (q : String) :
    ∃ r : StructuredResponse,
      process_query_with_agent_streaming chunks exc q = [jsonDumps r ++ "\n"] ∧
      r.query = q ∧
      (r.tool_used = "weather" ∨ r.tool_used = "math" ∨ r.tool_used = "llm") ∧
      ¬ '\n' ∈ (jsonDumps r).data :=
  ⟨runReporter chunks exc q, rfl, runReporter_query chunks exc q,
    runReporter_tag chunks exc q, jsonDumps_no_newline _⟩

/-- C9: two runs of the processing function on the same query, with the
external model and tools fixed so that they produce the same event stream
and the same exception outcome, yield identical Structured Responses and
identical generator output. -/
theorem identical_reruns (q1 q2 : String) (chunks1 chunks2 : List Chunk)
    (exc1 exc2 : Option String) (hq : q1 = q2) (hchunks : chunks1 = chunks2)
    (hexc : exc1 = exc2) :
    runReporter chunks1 exc1 q1 = runReporter chunks2 exc2 q2 ∧
    process_query_with_agent_streaming chunks1 exc1 q1
      = process_query_with_agent_streaming chunks2 exc2 q2 := by
  subst hq
  subst hchunks
  subst hexc
  exact ⟨rfl, rfl⟩

/-- Witness for C9 at a concrete query and stream. -/
theorem identical_reruns_witness :
    runReporter [mathActionChunk, finalOutputChunk] none "2 + 2"
      = runReporter [mathActionChunk, finalOutputChunk] none "2 + 2" ∧
    process_query_with_agent_streaming [mathActionChunk, finalOutputChunk] none "2 + 2"
      = process_query_with_agent_streaming [mathActionChunk, finalOutputChunk] none "2 + 2" :=
  identical_reruns "2 + 2" "2 + 2" [mathActionChunk, finalOutputChunk]
    [mathActionChunk, finalOutputChunk] none none rfl rfl rfl

/-! Helper lemmas about the arithmetic evaluator. -/

lemma unsupportedOpMsg_ne_empty (op : String) : unsupportedOpMsg op ≠ "" := by
  unfold unsupportedOpMsg
  apply append_ne_empty_of_left
  rw [String.data_append]
  intro hc
  exact absurd (List.append_eq_nil.mp hc).1 (by decide)

/-- C4: evaluate_math_expression is total and reports failures as non-empty
descriptive error strings: a wrong token count yields the format error, an
unparsable numeric token the invalid-number error, an operator outside the
four the unsupported-operator error, a float-zero divisor under division
the division-by-zero error; with the three concrete examples of the claim. -/
theorem math_error_strings :
    (∀ s m, evaluate_math_expression s = MathResult.err m → m ≠ "") ∧
    (∀ s, (pyTokens s).length ≠ 3 →
      evaluate_math_expression s = MathResult.err formatErrMsg) ∧
    (∀ s a op b, pyTokens s = [a, op, b] → parseFloat a = none →
      evaluate_math_expression s = MathResult.err invalidNumberMsg) ∧
    (∀ s a op b x, pyTokens s = [a, op, b] → parseFloat a = some x → parseFloat b = none →
      evaluate_math_expression s = MathResult.err invalidNumberMsg) ∧
    (∀ s a op b x y, pyTokens s = [a, op, b] → parseFloat a = some x →
      parseFloat b = some y → opsGet op = none →
      evaluate_math_expression s = MathResult.err (unsupportedOpMsg op)) ∧
    (∀ s a b x y, pyTokens s = [a, "/", b] → parseFloat a = some x →
      parseFloat b = some y → y.isZero = true →
      evaluate_math_expression s = MathResult.err divZeroMsg) ∧
    evaluate_math_expression "7 / 0" = MathResult.err divZeroMsg ∧
    evaluate_math_expression "abc + 2" = MathResult.err invalidNumberMsg ∧
    evaluate_math_expression "5 ^ 2" = MathResult.err (unsupportedOpMsg "^") := by
  refine ⟨?_, ?_, ?_, ?_, ?_, ?_, by decide, by decide, by decide⟩
  · intro s m h
    unfold evaluate_math_expression at h
    split at h
    · split at h
      · injection h with h1
        subst h1
        decide
      · split at h
        · injection h with h1
          subst h1
          decide
        · split at h
          · injection h with h1
            subst h1
            exact unsupportedOpMsg_ne_empty _
          · split at h
            · injection h with h1
              subst h1
              decide
            · unfold typedResult at h
              split at h
              · injection h with h1
                subst h1
                decide
              · injection h with h1
                subst h1
                decide
              · unfold intOfWhole at h
                split at h <;> simp at h
    · injection h with h1
      subst h1
      decide
  · intro s h
    unfold evaluate_math_expression
    split
    · rename_i heq
      exfalso
      apply h
      rw [heq]
      rfl
    · rfl
  · intro s a op b hs hpa
    unfold evaluate_math_expression
    rw [hs]
    simp only [hpa]
  · intro s a op b x hs hpa hpb
    unfold evaluate_math_expression
    rw [hs]
    simp only [hpa, hpb]
  · intro s a op b x y hs hpa hpb hop
    unfold evaluate_math_expression
    rw [hs]
    simp only [hpa, hpb, hop]
  · intro s a b x y hs hpa hpb h0
    unfold evaluate_math_expression
    rw [hs]
    simp [hpa, hpb, h0, show opsGet "/" = some Op.div from rfl]

/-- Witness for C4: the token-count conjunct applied to the concrete
two-token input "1 2". -/
theorem math_error_strings_witness :
    evaluate_math_expression "1 2" = MathResult.err formatErrMsg :=
  math_error_strings.2.1 "1 2" (by decide)

/-! Helper lemmas and theorems about the weather tool. -/

lemma lit_prefix_data_ne_nil (s t : String) (h : s.data ≠ []) : (s ++ t).data ≠ [] := by
  rw [String.data_append]
  intro hc
  exact h (List.append_eq_nil.mp hc).1

lemma get_weather_ok (location : String) (env : WeatherEnv) (st : Nat) (stext : String)
    (d : WeatherData)
    (hkey : ¬(env.apiKey = "" ∨ env.apiKey = "YOUR_OPENWEATHER_API_KEY"))
    (hhttp : env.http ⟨location, env.apiKey, "metric"⟩ = HttpResult.ok st stext d) :
    get_weather location env
      = (if 400 ≤ st ∧ st < 600 then
          ("Error fetching weather for " ++ location ++ ": A network error occurred: "
              ++ stext, [⟨location, env.apiKey, "metric"⟩])
        else if d.cod = some 200 then
          match d.temp with
          | some t =>
              ("It\x27s " ++ t ++ "°C and " ++ d.description.getD "unknown" ++ " in "
                ++ pyOptStr d.name ++ ", " ++ pyOptStr d.country ++ ".",
                [⟨location, env.apiKey, "metric"⟩])
          | none =>
              ("Weather data available for " ++ pyOptStr d.name ++ ", "
                ++ pyOptStr d.country ++ ", but temperature is missing.",
                [⟨location, env.apiKey, "metric"⟩])
        else
          ("Could not retrieve weather for " ++ location ++ ": "
              ++ d.message.getD "Unknown error from API",
            [⟨location, env.apiKey, "metric"⟩])) := by
  simp only [get_weather, hhttp]
  rw [if_neg hkey]

/-- C5: with a configured key, a response whose HTTP status triggers
raise_for_status yields the network-error string built from the raised
error text, and a successfully decoded response whose provider code is not
200 yields the provider-error string that incorporates the provider message
when one is present (and a fixed fallback otherwise); both are non-empty,
and get_weather is a total function, so nothing escapes its boundary. -/
theorem weather_error_reporting (location : String) (env : WeatherEnv)
    (st : Nat) (stext : String) (d : WeatherData)
    (hkey : ¬(env.apiKey = "" ∨ env.apiKey = "YOUR_OPENWEATHER_API_KEY"))
    (hhttp : env.http ⟨location, env.apiKey, "metric"⟩ = HttpResult.ok st stext d) :
    (400 ≤ st → st < 600 →
      (get_weather location env).1
        = "Error fetching weather for " ++ location ++ ": A network error occurred: "
            ++ stext ∧
      (get_weather location env).1 ≠ "") ∧
    (¬(400 ≤ st ∧ st < 600) → d.cod ≠ some 200 →
      (get_weather location env).1
        = "Could not retrieve weather for " ++ location ++ ": "
            ++ d.message.getD "Unknown error from API" ∧
      (∀ m, d.message = some m →
        (get_weather location env).1
          = "Could not retrieve weather for " ++ location ++ ": " ++ m) ∧
      (get_weather location env).1 ≠ "") := by
  have hred := get_weather_ok location env st stext d hkey hhttp
  constructor
  · intro h1 h2
    rw [hred, if_pos ⟨h1, h2⟩]
    refine ⟨rfl, ?_⟩
    exact append_ne_empty_of_left _ _
      (lit_prefix_data_ne_nil _ _ (lit_prefix_data_ne_nil _ _ (by decide)))
  · intro hns hcod
    have hmain : (get_weather location env).1
        = "Could not retrieve weather for " ++ location ++ ": "
            ++ d.message.getD "Unknown error from API" := by
      rw [hred, if_neg hns, if_neg hcod]
    refine ⟨hmain, ?_, ?_⟩
    · intro m hm
      rw [hmain, hm]
      rfl
    · rw [hmain]
      exact append_ne_empty_of_left _ _
        (lit_prefix_data_ne_nil _ _ (lit_prefix_data_ne_nil _ _ (by decide)))

/-- An environment whose provider answers every request with a decoded body
carrying provider code 404 and a message. -/
def notFoundEnv : WeatherEnv :=
  ⟨"k", fun _ =>
    HttpResult.ok 200 "OK" ⟨some 404, some "city not found", none, none, none, none⟩⟩

/-- Witness for C5: the provider-error branch at a concrete location and
environment, incorporating the provider message. -/
theorem weather_error_reporting_witness :
    (get_weather "Atlantis" notFoundEnv).1
      = "Could not retrieve weather for " ++ "Atlantis" ++ ": " ++ "city not found" :=
  ((weather_error_reporting "Atlantis" notFoundEnv 200 "OK"
    ⟨some 404, some "city not found", none, none, none, none⟩ (by decide) rfl).2
    (by decide) (by decide)).2.1 "city not found" rfl

/-- C7: whenever the configured key is empty or still the placeholder
sentinel, get_weather returns the key-configuration notice and issues no
outbound request at all. -/
theorem missing_key_no_network (location : String) (env : WeatherEnv)
    (hkey : env.apiKey = "" ∨ env.apiKey = "YOUR_OPENWEATHER_API_KEY") :
    (get_weather location env).1 = weatherKeyMsg ∧ (get_weather location env).2 = [] ∧
      weatherKeyMsg ≠ "" := by
  simp only [get_weather]
  rw [if_pos hkey]
  exact ⟨rfl, rfl, by decide⟩

/-- An environment with no key configured; its network raises if reached. -/
def noKeyEnv : WeatherEnv := ⟨"", fun _ => HttpResult.exc "network down"⟩

/-- Witness for C7 at a concrete location and keyless environment. -/
theorem missing_key_no_network_witness :
    (get_weather "Paris" noKeyEnv).1 = weatherKeyMsg ∧ (get_weather "Paris" noKeyEnv).2 = [] ∧
      weatherKeyMsg ≠ "" :=
  missing_key_no_network "Paris" noKeyEnv (Or.inl rfl)

/-- An environment that recognizes only the location "Chicago"; any other
query string, the empty one included, earns a provider error. -/
def chicagoOnlyEnv : WeatherEnv :=
  ⟨"k", fun p =>
    if p.q = "Chicago" then
      HttpResult.ok 200 "OK"
        ⟨some 200, none, some "20", some "clear sky", some "Chicago", some "US"⟩
    else
      HttpResult.ok 200 "OK" ⟨some 404, some "city not found", none, none, none, none⟩⟩

/-- Counterexample to C6 as stated: with the empty string as location,
get_weather does not behave as if the location were "Chicago": it sends the
empty string as the q parameter and can answer differently. -/
theorem empty_location_not_defaulted_counterexample :
    (get_weather "" chicagoOnlyEnv).1 ≠ (get_weather "Chicago" chicagoOnlyEnv).1 ∧
    (get_weather "" chicagoOnlyEnv).2 = [⟨"", "k", "metric"⟩] ∧
    (get_weather "Chicago" chicagoOnlyEnv).1
      = "It\x27s 20°C and clear sky in Chicago, US." :=
  ⟨by decide, by decide, by decide⟩

/-- C6 amended: the "Chicago" default applies only when the location
argument is absent (the declared Python default); an empty-string location
is passed through unchanged as the q parameter of the outbound request. -/
theorem empty_location_passed_through (env : WeatherEnv)
    (hkey : ¬(env.apiKey = "" ∨ env.apiKey = "YOUR_OPENWEATHER_API_KEY")) :
    get_weather_noarg env = get_weather "Chicago" env ∧
    (get_weather "" env).2 = [⟨"", env.apiKey, "metric"⟩] := by
  refine ⟨rfl, ?_⟩
  simp only [get_weather]
  rw [if_neg hkey]
  cases hh : env.http ⟨"", env.apiKey, "metric"⟩ with
  | ok st stext d =>
      simp only [hh]
      split_ifs with h1 h2
      · rfl
      · cases d.temp <;> rfl
      · rfl
  | exc e =>
      simp only [hh]

/-- Witness for the amended C6 at a concrete environment. -/
theorem empty_location_passed_through_witness :
    get_weather_noarg chicagoOnlyEnv = get_weather "Chicago" chicagoOnlyEnv ∧
    (get_weather "" chicagoOnlyEnv).2 = [⟨"", chicagoOnlyEnv.apiKey, "metric"⟩] :=
  empty_location_passed_through chicagoOnlyEnv (by decide)

end AgentApp
